import Mathlib

/-!
Verification of the benchmark-log analysis scripts of the rsx207-wasm-bench
repository (scripts/analyze_*.py, scripts/generate_summary.py) against their
natural-language specification.

Numeric samples (floating-point millisecond durations, throughputs, memory
sizes) are modelled as exact rationals `ℚ`; square roots (Python's
`statistics.stdev`) land in `ℝ` via `Real.sqrt`.  Log lines are opaque values
of a type `L`, and each fixed regular expression of the source is modelled as
an abstract extraction function `L → Option …` (a line either matches, with
its captured numeric groups converted, or does not).  Printed console output
is modelled as a trace of structured `Event` values, one constructor per
print statement whose presence or content the specification speaks about.
Python exceptions (`ZeroDivisionError`) are modelled by `Option`: `none`
means the script aborts with a traceback.
-/

/-! ## Shared statistics helpers (Python `statistics` module, as used here) -/

/-- Model of Python `statistics.mean`: sum of the values divided by their
count.  (Python raises on an empty list; every call site in the scripts
guards for non-emptiness, and on `[]` this model returns the junk value 0.) -/
def listMean (v : List ℚ) : ℚ := v.sum / v.length

/-- Model of Python `min(values)` on a non-empty list (junk value 0 on `[]`). -/
def listMin : List ℚ → ℚ
  | [] => 0
  | x :: xs => xs.foldl min x

/-- Model of Python `max(values)` on a non-empty list (junk value 0 on `[]`). -/
def listMax : List ℚ → ℚ
  | [] => 0
  | x :: xs => xs.foldl max x

/-- Model of Python `statistics.median`: middle element of the ascending
sort for odd length, average of the two middle elements for even length. -/
def listMedian (v : List ℚ) : ℚ :=
  let s := List.insertionSort (· ≤ ·) v
  let n := v.length
  if n % 2 = 1 then s.getD (n / 2) 0
  else (s.getD (n / 2 - 1) 0 + s.getD (n / 2) 0) / 2

/-- The sample variance with n−1 denominator, used by Python
`statistics.stdev` (defined for lists of length ≥ 2). -/
def sampleVariance (v : List ℚ) : ℚ :=
  (v.map (fun x => (x - listMean v) ^ 2)).sum / ((v.length : ℚ) - 1)

/-- Model of Python `statistics.stdev`: square root of the sample variance
with n−1 denominator.  (Python raises `StatisticsError` below 2 samples;
every call site guards with `len(values) > 1`.) -/
noncomputable def statistics_stdev (v : List ℚ) : ℝ := Real.sqrt (sampleVariance v)

/-- Stated from the spec, independently of the code: "the sample (n−1
denominator) standard deviation of the same values computed independently" —
square root of (sum of squared deviations from the mean) / (n − 1). -/
noncomputable def specSampleStdev (v : List ℚ) : ℝ :=
  Real.sqrt ((((v.map (fun x => (x - v.sum / v.length) ^ 2)).sum / ((v.length : ℚ) - 1) : ℚ) : ℝ))

theorem statistics_stdev_eq_spec (v : List ℚ) : statistics_stdev v = specSampleStdev v := rfl

/-! ## analyze_cold_start_comparison.py — data model and aggregator -/

/-- One row of `cold_start_data.csv` as loaded by `load_data`
(header `runtime,type,run,build_ms,start_ms,total_ms`). -/
structure CsvEntry where
  run : ℕ
  build_ms : ℚ
  start_ms : ℚ
  total_ms : ℚ
deriving DecidableEq

/-- The four scenario keys `f"{runtime}_{start_type}"` that `load_data`
retains (any other key is dropped by the `if key in data` check). -/
inductive Scenario where
  | docker_full_cold
  | docker_runtime_cold
  | wasmtime_full_cold
  | wasmtime_runtime_cold
deriving DecidableEq

/-- The key order `print_summary` iterates over. -/
def summaryKeys : List Scenario :=
  [.docker_full_cold, .docker_runtime_cold, .wasmtime_full_cold, .wasmtime_runtime_cold]

/-- Model of the Python test `"full_cold" in key` on the four scenario keys. -/
def Scenario.isFullCold : Scenario → Bool
  | .docker_full_cold => true
  | .wasmtime_full_cold => true
  | _ => false

/-- The statistics dictionary built by `compute_stats`. -/
structure ColdStats where
  mean : ℚ
  median : ℚ
  stdev : ℝ
  min : ℚ
  max : ℚ
  count : ℕ

/-- `compute_stats(values)` from analyze_cold_start_comparison.py: on an
empty list it returns the empty dict (modelled `none`); otherwise mean,
median, `statistics.stdev(values) if len(values) > 1 else 0`, min, max,
count. -/
noncomputable def compute_stats (values : List ℚ) : Option ColdStats :=
  if values = [] then none
  else some
    { mean := listMean values
      median := listMedian values
      stdev := if 1 < values.length then statistics_stdev values else 0
      min := listMin values
      max := listMax values
      count := values.length }

/-- The standard-deviation expression of `plot_grouped_bar` (line 162):
`statistics.stdev(times) if len(times) > 1 else 0` applied to a possibly
empty sample list. -/
noncomputable def plot_grouped_bar_stdev (times : List ℚ) : ℝ :=
  if 1 < times.length then statistics_stdev times else 0

/-- C1: For every sample collection, the aggregator's reported standard
deviation equals the sample standard deviation with n−1 denominator when the
collection has at least 2 samples, and is exactly 0 when the collection has
0 or 1 samples.  (`compute_stats` reports no statistics at all for an empty
collection — it returns the empty dict — so its reported stdev is the
n−1-denominator stdev for n ≥ 2 and 0 for n = 1; the plotting path, which
does report a value for an empty collection, reports 0 there.) -/
theorem cold_start_stdev_matches_sample_stdev (v : List ℚ) :
    ((compute_stats v).map ColdStats.stdev
       = if v = [] then none
         else some (if 1 < v.length then specSampleStdev v else 0))
    ∧ plot_grouped_bar_stdev v
       = (if 1 < v.length then specSampleStdev v else 0) := by
  refine ⟨?_, ?_⟩
  · by_cases hv : v = [] <;>
      simp [compute_stats, hv, plot_grouped_bar_stdev, statistics_stdev_eq_spec]
  · simp [plot_grouped_bar_stdev, statistics_stdev_eq_spec]

/-! ## generate_summary.py — calculate_percentile -/

/-- `calculate_percentile(samples, percentile)` from generate_summary.py:
0.0 on an empty list, otherwise the ascending-sorted list indexed at
`int(len * percentile / 100)` clamped to the last valid index.  The Python
`int(len(sorted_samples) * percentile / 100)` truncation of the float
quotient is modelled by natural floor division. -/
def calculate_percentile (samples : List ℚ) (percentile : ℕ) : ℚ :=
  if samples = [] then 0
  else
    let sorted_samples := List.insertionSort (· ≤ ·) samples
    let index := samples.length * percentile / 100
    sorted_samples.getD (min index (samples.length - 1)) 0

/-- C3: for every percentile p and every non-empty list of samples,
`calculate_percentile` returns the element of the ascending-sorted list at
index min(floor(n·p/100), n−1): the sorted list is an ascending permutation
of the samples, the index is in bounds, and the result is the element there. -/
theorem calculate_percentile_rank_index (samples : List ℚ) (p : ℕ)
    (h : samples ≠ []) :
    List.Sorted (· ≤ ·) (List.insertionSort (· ≤ ·) samples)
    ∧ (List.insertionSort (· ≤ ·) samples).Perm samples
    ∧ min (samples.length * p / 100) (samples.length - 1)
        < (List.insertionSort (· ≤ ·) samples).length
    ∧ calculate_percentile samples p
        = (List.insertionSort (· ≤ ·) samples).getD
            (min (samples.length * p / 100) (samples.length - 1)) 0 := by
  have hlen : (List.insertionSort (· ≤ ·) samples).length = samples.length :=
    (List.perm_insertionSort _ samples).length_eq
  have hpos : 0 < samples.length := List.length_pos.mpr h
  refine ⟨List.sorted_insertionSort _ samples, List.perm_insertionSort _ samples, ?_, ?_⟩
  · calc min (samples.length * p / 100) (samples.length - 1)
        ≤ samples.length - 1 := min_le_right _ _
      _ < samples.length := Nat.sub_lt hpos one_pos
      _ = (List.insertionSort (· ≤ ·) samples).length := hlen.symm
  · simp [calculate_percentile, h]

/-- Witness for C3 at samples [3, 1, 2] and percentile 50. -/
theorem calculate_percentile_rank_index_witness :
    ([(3 : ℚ), 1, 2] ≠ [])
    ∧ (List.Sorted (· ≤ ·) (List.insertionSort (· ≤ ·) [(3 : ℚ), 1, 2])
       ∧ (List.insertionSort (· ≤ ·) [(3 : ℚ), 1, 2]).Perm [(3 : ℚ), 1, 2]
       ∧ min ([(3 : ℚ), 1, 2].length * 50 / 100) ([(3 : ℚ), 1, 2].length - 1)
           < (List.insertionSort (· ≤ ·) [(3 : ℚ), 1, 2]).length
       ∧ calculate_percentile [(3 : ℚ), 1, 2] 50
           = (List.insertionSort (· ≤ ·) [(3 : ℚ), 1, 2]).getD
               (min ([(3 : ℚ), 1, 2].length * 50 / 100) ([(3 : ℚ), 1, 2].length - 1)) 0) :=
  ⟨by decide, calculate_percentile_rank_index [(3 : ℚ), 1, 2] 50 (by decide)⟩

/-! ## Console output as a structured trace

Each constructor stands for one family of print statements in the scripts;
fixed banner/caption text with no data content is not traced. -/

inductive Event where
  /-- "[WARN] No … samples for {rt} in {path}" (per-runtime load loop). -/
  | warnNoSamples (rt : String)
  /-- "[WARN] Only {n} samples for {rt}. Recommend at least 5 …". -/
  | warnFewSamples (rt : String) (n : ℕ)
  /-- "{rt1} vs {rt2}: SKIPPED (insufficient samples)" in the Mann-Whitney loop. -/
  | skippedPair (rt1 rt2 : String)
  /-- The Mann-Whitney result block for one pair, with its p-value. -/
  | pairResult (rt1 rt2 : String) (p : ℚ)
  /-- The per-scenario statistics block of `print_summary` (mean/median/stdev/min/max). -/
  | scenarioStats (key : Scenario) (s : ColdStats)
  /-- The build/start breakdown block printed for full-cold scenarios. -/
  | breakdown (key : Scenario) (buildMean startMean : ℚ)
  /-- "{desc}: {winner} is {ratio}x faster" comparison line. -/
  | comparisonLine (desc : String) (winner : Scenario) (ratio : ℚ)
  /-- "  {benchmark} / {rt}: {n} samples" count line of generate_summary. -/
  | sampleCount (benchmark rt : String) (n : ℕ)

/-- A printed line that explains a skipped or substituted statistic
(the warning and SKIPPED prints); the data-reporting lines are not. -/
def Event.isExplanatory : Event → Bool
  | .warnNoSamples _ => true
  | .warnFewSamples _ _ => true
  | .skippedPair _ _ => true
  | _ => false

/-! ## analyze_cold_start_comparison.py — print_summary comparisons -/

/-- The branch condition of the comparison block of `print_summary`:
`mean1 > mean2` makes the second scenario the winner. -/
def comparisonWinnerIsSecond (e1 e2 : List CsvEntry) : Bool :=
  listMean (e2.map CsvEntry.total_ms) < listMean (e1.map CsvEntry.total_ms)

/-- The speedup ratio printed by the comparison block of `print_summary`:
`mean1 / mean2` when the second scenario wins, `mean2 / mean1` otherwise. -/
def comparisonRatio (e1 e2 : List CsvEntry) : ℚ :=
  let mean1 := listMean (e1.map CsvEntry.total_ms)
  let mean2 := listMean (e2.map CsvEntry.total_ms)
  if mean2 < mean1 then mean1 / mean2 else mean2 / mean1

/-- C2: in every printed comparison over two non-empty scenario sample sets,
the scenario named as winner has the smaller mean `total_ms` (strictly
smaller whenever the means differ; on a tie the first scenario is named),
and the printed ratio is the slower mean divided by the faster mean, hence
at least 1 whenever both means are positive. -/
theorem comparison_winner_and_ratio (e1 e2 : List CsvEntry)
    (h1 : e1 ≠ []) (h2 : e2 ≠ []) :
    (comparisonWinnerIsSecond e1 e2 = true
       → listMean (e2.map CsvEntry.total_ms) < listMean (e1.map CsvEntry.total_ms))
    ∧ (comparisonWinnerIsSecond e1 e2 = false
       → listMean (e1.map CsvEntry.total_ms) ≤ listMean (e2.map CsvEntry.total_ms))
    ∧ comparisonRatio e1 e2
        = max (listMean (e1.map CsvEntry.total_ms)) (listMean (e2.map CsvEntry.total_ms))
          / min (listMean (e1.map CsvEntry.total_ms)) (listMean (e2.map CsvEntry.total_ms))
    ∧ (0 < listMean (e1.map CsvEntry.total_ms)
       → 0 < listMean (e2.map CsvEntry.total_ms)
       → 1 ≤ comparisonRatio e1 e2) := by
  set m1 := listMean (e1.map CsvEntry.total_ms) with hm1
  set m2 := listMean (e2.map CsvEntry.total_ms) with hm2
  refine ⟨?_, ?_, ?_, ?_⟩
  · intro hw
    simpa [comparisonWinnerIsSecond, ← hm1, ← hm2] using hw
  · intro hw
    simp only [comparisonWinnerIsSecond, ← hm1, ← hm2, decide_eq_false_iff_not, not_lt] at hw
    exact hw
  · by_cases hlt : m2 < m1
    · rw [comparisonRatio]
      simp only [← hm1, ← hm2, if_pos hlt]
      rw [max_eq_left hlt.le, min_eq_right hlt.le]
    · rw [comparisonRatio]
      simp only [← hm1, ← hm2, if_neg hlt]
      push_neg at hlt
      rw [max_eq_right hlt, min_eq_left hlt]
  · intro hp1 hp2
    by_cases hlt : m2 < m1
    · rw [comparisonRatio]
      simp only [← hm1, ← hm2, if_pos hlt]
      rw [le_div_iff hp2, one_mul]
      exact hlt.le
    · rw [comparisonRatio]
      simp only [← hm1, ← hm2, if_neg hlt]
      push_neg at hlt
      rw [le_div_iff hp1, one_mul]
      exact hlt

/-- Witness for C2: docker full-cold mean 4 vs wasmtime full-cold mean 2. -/
theorem comparison_winner_and_ratio_witness :
    ([CsvEntry.mk 1 0 0 4] ≠ []) ∧ ([CsvEntry.mk 1 0 0 2] ≠ [])
    ∧ ((comparisonWinnerIsSecond [CsvEntry.mk 1 0 0 4] [CsvEntry.mk 1 0 0 2] = true
         → listMean ([CsvEntry.mk 1 0 0 2].map CsvEntry.total_ms)
             < listMean ([CsvEntry.mk 1 0 0 4].map CsvEntry.total_ms))
       ∧ (comparisonWinnerIsSecond [CsvEntry.mk 1 0 0 4] [CsvEntry.mk 1 0 0 2] = false
         → listMean ([CsvEntry.mk 1 0 0 4].map CsvEntry.total_ms)
             ≤ listMean ([CsvEntry.mk 1 0 0 2].map CsvEntry.total_ms))
       ∧ comparisonRatio [CsvEntry.mk 1 0 0 4] [CsvEntry.mk 1 0 0 2]
           = max (listMean ([CsvEntry.mk 1 0 0 4].map CsvEntry.total_ms))
               (listMean ([CsvEntry.mk 1 0 0 2].map CsvEntry.total_ms))
             / min (listMean ([CsvEntry.mk 1 0 0 4].map CsvEntry.total_ms))
               (listMean ([CsvEntry.mk 1 0 0 2].map CsvEntry.total_ms))
       ∧ (0 < listMean ([CsvEntry.mk 1 0 0 4].map CsvEntry.total_ms)
         → 0 < listMean ([CsvEntry.mk 1 0 0 2].map CsvEntry.total_ms)
         → 1 ≤ comparisonRatio [CsvEntry.mk 1 0 0 4] [CsvEntry.mk 1 0 0 2])) :=
  ⟨by decide, by decide,
    comparison_winner_and_ratio [CsvEntry.mk 1 0 0 4] [CsvEntry.mk 1 0 0 2]
      (by decide) (by decide)⟩

/-! ## analyze_http_hello_scaling.py — calculate_scaling_efficiency

The per-runtime data is the mapping concurrency → throughput samples
(`samples[conc]["throughput_rps"]`), modelled as an association list.
Python float division raises `ZeroDivisionError` on a zero divisor, so the
efficiency loop is `Option`-valued: `none` models the propagated exception. -/

/-- The per-concurrency efficiency record
`{"actual_speedup": …, "ideal_speedup": …, "efficiency_pct": …}`. -/
structure EffEntry where
  actual_speedup : ℚ
  ideal_speedup : ℕ
  efficiency_pct : ℚ
deriving DecidableEq

/-- One iteration of the efficiency loop body: actual speedup is the mean
throughput at this concurrency over the baseline mean, ideal speedup is the
concurrency, efficiency is their quotient times 100. -/
def effEntry (baseline : ℚ) (conc : ℕ) (tps : List ℚ) : EffEntry :=
  { actual_speedup := listMean tps / baseline
    ideal_speedup := conc
    efficiency_pct := listMean tps / baseline / (conc : ℚ) * 100 }

/-- The `for conc in concs` loop of `calculate_scaling_efficiency`:
`actual_throughput / baseline_throughput` raises when the baseline mean is
zero, and `actual_speedup / ideal_speedup` raises when the concurrency is
zero; either exception aborts the whole computation (`none`). -/
def effLoop (baseline : ℚ) : List (ℕ × List ℚ) → Option (List (ℕ × EffEntry))
  | [] => some []
  | p :: rest =>
    if baseline = 0 then none
    else if p.1 = 0 then none
    else
      match effLoop baseline rest with
      | none => none
      | some l => some ((p.1, effEntry baseline p.1 p.2) :: l)

/-- `calculate_scaling_efficiency(data, runtime)` from
analyze_http_hello_scaling.py, applied to one runtime's concurrency map:
the empty dict when there is no concurrency-1 key (`if not concs or 1 not
in concs: return {}`), otherwise one entry per observed concurrency level.
(The Python loop visits keys in sorted order; the resulting dict holds the
same key-to-entry mapping, which is what is modelled here.) -/
def calculate_scaling_efficiency (conc_map : List (ℕ × List ℚ)) :
    Option (List (ℕ × EffEntry)) :=
  match conc_map.lookup 1 with
  | none => some []
  | some base => effLoop (listMean base) conc_map

theorem effLoop_eq_map (b : ℚ) (hb : b ≠ 0) :
    ∀ m : List (ℕ × List ℚ), (∀ p ∈ m, p.1 ≠ 0) →
      effLoop b m = some (m.map (fun p => (p.1, effEntry b p.1 p.2)))
  | [], _ => by simp [effLoop]
  | p :: rest, h => by
    have hp : p.1 ≠ 0 := h p (List.mem_cons_self p rest)
    have hrest := effLoop_eq_map b hb rest (fun q hq => h q (List.mem_cons_of_mem p hq))
    simp [effLoop, hb, hp, hrest]

theorem effLoop_baseline_ne_zero {b : ℚ} {m : List (ℕ × List ℚ)}
    {l : List (ℕ × EffEntry)} (h : effLoop b m = some l) (hm : m ≠ []) : b ≠ 0 := by
  intro hb0
  cases m with
  | nil => exact hm rfl
  | cons p rest => simp [effLoop, hb0] at h

theorem effLoop_lookup_one (b : ℚ) :
    ∀ (m : List (ℕ × List ℚ)) (l : List (ℕ × EffEntry)) (base : List ℚ),
      effLoop b m = some l → m.lookup 1 = some base →
      l.lookup 1 = some (effEntry b 1 base)
  | [], l, base, _, hlk => by simp at hlk
  | (c, tps) :: rest, l, base, h, hlk => by
    by_cases hb0 : b = 0
    · simp [effLoop, hb0] at h
    by_cases hp : c = 0
    · simp [effLoop, hb0, hp] at h
    rcases hrec : effLoop b rest with _ | l'
    · simp [effLoop, hb0, hp, hrec] at h
    simp only [effLoop, if_neg hb0, if_neg hp, hrec] at h
    have hl : l = (c, effEntry b c tps) :: l' := (Option.some.inj h).symm
    subst hl
    cases hc : ((1 : ℕ) == c) with
    | true =>
      have h1 : (1 : ℕ) = c := beq_iff_eq.mp hc
      subst h1
      have hbase : tps = base := by simpa [List.lookup] using hlk
      subst hbase
      simp [List.lookup]
    | false =>
      have hlk' : rest.lookup 1 = some base := by
        simpa [List.lookup, hc] using hlk
      have hrec2 := effLoop_lookup_one b rest l' base hrec hlk'
      simpa [List.lookup, hc] using hrec2

/-- Counterexample to C4: when the concurrency-1 baseline exists but has
mean 0, or when a concurrency level 0 is observed, the code raises
`ZeroDivisionError` (the computation aborts) instead of returning an entry
for each observed concurrency level. -/
theorem scaling_efficiency_formula_ce :
    calculate_scaling_efficiency [(1, [(0 : ℚ)]), (2, [3])] = none
    ∧ calculate_scaling_efficiency [(0, [(1 : ℚ)]), (1, [2])] = none := by
  constructor
  · have h0 : listMean [(0 : ℚ)] = 0 := by norm_num [listMean]
    simp [calculate_scaling_efficiency, List.lookup, effLoop, h0]
  · have h2 : listMean [(2 : ℚ)] = 2 := by norm_num [listMean]
    simp [calculate_scaling_efficiency, List.lookup, effLoop, h2]

/-- C4 (amended): `calculate_scaling_efficiency` returns the empty mapping
when no concurrency-1 key is present; and when the concurrency-1 baseline
exists with nonzero mean and every observed concurrency level is nonzero
(so no division by zero occurs), it returns one entry for each observed
concurrency level c with efficiency_pct = (mean throughput at c / mean
throughput at 1) / c × 100. -/
theorem calculate_scaling_efficiency_formula :
    (∀ m : List (ℕ × List ℚ), m.lookup 1 = none →
       calculate_scaling_efficiency m = some [])
    ∧ (∀ (m : List (ℕ × List ℚ)) (base : List ℚ), m.lookup 1 = some base →
        listMean base ≠ 0 → (∀ p ∈ m, p.1 ≠ 0) →
        calculate_scaling_efficiency m
          = some (m.map (fun p =>
              (p.1, ⟨listMean p.2 / listMean base, p.1,
                     listMean p.2 / listMean base / (p.1 : ℚ) * 100⟩)))) := by
  constructor
  · intro m hm
    simp [calculate_scaling_efficiency, hm]
  · intro m base hm hb hall
    simp only [calculate_scaling_efficiency, hm]
    exact effLoop_eq_map (listMean base) hb m hall

/-- Witness for C4 at the map {1 ↦ [2], 2 ↦ [2, 6]}. -/
theorem calculate_scaling_efficiency_formula_witness :
    (List.lookup 1 [(1, [(2 : ℚ)]), (2, [2, 6])] = some [(2 : ℚ)])
    ∧ listMean [(2 : ℚ)] ≠ 0
    ∧ (∀ p ∈ [(1, [(2 : ℚ)]), (2, [2, 6])], p.1 ≠ 0)
    ∧ calculate_scaling_efficiency [(1, [(2 : ℚ)]), (2, [2, 6])]
        = some ([(1, [(2 : ℚ)]), (2, [2, 6])].map (fun p =>
            (p.1, ⟨listMean p.2 / listMean [(2 : ℚ)], p.1,
                   listMean p.2 / listMean [(2 : ℚ)] / (p.1 : ℚ) * 100⟩))) :=
  ⟨rfl, by norm_num [listMean], by decide,
    calculate_scaling_efficiency_formula.2 [(1, [(2 : ℚ)]), (2, [2, 6])] [(2 : ℚ)]
      rfl (by norm_num [listMean]) (by decide)⟩

/-- Counterexample to C8: with a non-empty concurrency-1 sample set of mean
0 (e.g. the single sample 0.0), the code raises `ZeroDivisionError` instead
of reporting 100% efficiency at concurrency 1. -/
theorem scaling_efficiency_at_one_ce :
    calculate_scaling_efficiency [(1, [(0 : ℚ)])] = none := by
  have h0 : listMean [(0 : ℚ)] = 0 := by norm_num [listMean]
  simp [calculate_scaling_efficiency, List.lookup, effLoop, h0]

/-- C8 (amended): whenever the efficiency computation completes without a
zero division and a concurrency-1 baseline entry exists, the reported entry
at concurrency level 1 is exactly speedup 1, ideal speedup 1, efficiency
100%. -/
theorem scaling_efficiency_100_at_one (m : List (ℕ × List ℚ))
    (l : List (ℕ × EffEntry)) (base : List ℚ)
    (h : calculate_scaling_efficiency m = some l)
    (hb : m.lookup 1 = some base) :
    l.lookup 1 = some ⟨1, 1, 100⟩ := by
  rw [calculate_scaling_efficiency, hb] at h
  have hm : m ≠ [] := by
    intro he
    rw [he] at hb
    simp at hb
  have hb0 : listMean base ≠ 0 := effLoop_baseline_ne_zero h hm
  have := effLoop_lookup_one (listMean base) m l base h hb
  rw [this]
  simp [effEntry, div_self hb0]

/-- Witness for C8 at the map {1 ↦ [4]}. -/
theorem scaling_efficiency_100_at_one_witness :
    calculate_scaling_efficiency [(1, [(4 : ℚ)])] = some [(1, ⟨1, 1, 100⟩)]
    ∧ List.lookup 1 [(1, [(4 : ℚ)])] = some [(4 : ℚ)]
    ∧ List.lookup 1 [((1 : ℕ), (⟨1, 1, 100⟩ : EffEntry))] = some ⟨1, 1, 100⟩ := by
  have hcalc : calculate_scaling_efficiency [(1, [(4 : ℚ)])] = some [(1, ⟨1, 1, 100⟩)] := by
    norm_num [calculate_scaling_efficiency, List.lookup, effLoop, effEntry, listMean]
  exact ⟨hcalc, rfl,
    scaling_efficiency_100_at_one [(1, [(4 : ℚ)])] [(1, ⟨1, 1, 100⟩)] [(4 : ℚ)] hcalc rfl⟩

/-! ## Log locators and line parsers (load_samples of the cpu-hash scripts
and generate_summary.py)

A results directory is `Option (List (String × List L))`: `none` when the
directory does not exist (pathlib then yields no files), otherwise the
filename/lines pairs it holds.  Log lines are opaque values of a type `L`;
each fixed regular expression of the source is an abstract extraction
function from `L`. -/

/-- The pathlib glob `*_run.log`: filenames ending in the suffix, with the
leading-dot (hidden file) exclusion of glob patterns. -/
def runLogGlob (name : String) : Bool :=
  name.endsWith "_run.log" && !name.startsWith "."

/-- The redundant per-file re-check `RUN_LOG_PATTERN.match(log.name)` for
the pattern `.*_run\.log$`. -/
def runLogRegexMatch (name : String) : Bool :=
  name.endsWith "_run.log"

/-- Comparison of directory entries by filename, as produced by Python
`sorted()` over the globbed paths of a single directory. -/
def fileLe {L : Type} (a b : String × List L) : Prop := a.1 ≤ b.1

instance {L : Type} : DecidableRel (fileLe (L := L)) :=
  fun a b => inferInstanceAs (Decidable (a.1 ≤ b.1))

instance {L : Type} : IsTotal (String × List L) fileLe :=
  ⟨fun a b => le_total a.1 b.1⟩

instance {L : Type} : IsTrans (String × List L) fileLe :=
  ⟨fun _ _ _ h h2 => le_trans h h2⟩

/-- Python `sorted(path.glob(...))` on the already-filtered entries. -/
def sortFiles {L : Type} (files : List (String × List L)) : List (String × List L) :=
  List.insertionSort fileLe files

theorem runLogGlob_implies_regex {name : String} (h : runLogGlob name = true) :
    runLogRegexMatch name = true := by
  simp only [runLogGlob, Bool.and_eq_true] at h
  exact h.1

namespace CpuHash

/-- The inner line loop of `load_samples` in analyze_cpu_hash_comparison.py:
append the captured value of each matching line, ignore the rest. -/
def appendMatches {L : Type} (extract : L → Option ℚ) (acc : List ℚ) (lines : List L) :
    List ℚ :=
  lines.foldl (fun acc2 line =>
    match extract line with
    | some v => acc2 ++ [v]
    | none => acc2) acc

/-- `load_samples(path)` from analyze_cpu_hash_comparison.py: iterate the
`*_run.log` files in sorted order (re-checking `RUN_LOG_PATTERN`), and
collect the value captured by `OUTER_MS_PATTERN` from each matching line.
A missing directory globs to no files at all. -/
def load_samples {L : Type} (dir : Option (List (String × List L)))
    (extract : L → Option ℚ) : List ℚ :=
  match dir with
  | none => []
  | some files =>
    (sortFiles (files.filter (fun f => runLogGlob f.1))).foldl
      (fun acc f => if runLogRegexMatch f.1 then appendMatches extract acc f.2 else acc) []

theorem appendMatches_eq {L : Type} (extract : L → Option ℚ) :
    ∀ (lines : List L) (acc : List ℚ),
      appendMatches extract acc lines = acc ++ lines.filterMap extract
  | [], acc => by simp [appendMatches]
  | line :: rest, acc => by
    cases h : extract line with
    | none =>
      have := appendMatches_eq extract rest acc
      simp only [appendMatches, List.foldl_cons, h] at this ⊢
      simp [this, List.filterMap_cons, h]
    | some v =>
      have := appendMatches_eq extract rest (acc ++ [v])
      simp only [appendMatches, List.foldl_cons, h] at this ⊢
      simp [this, List.filterMap_cons, h]

theorem load_fold_eq_flat {L : Type} (extract : L → Option ℚ) :
    ∀ (fs : List (String × List L)), (∀ f ∈ fs, runLogRegexMatch f.1 = true) →
      ∀ acc : List ℚ,
        fs.foldl (fun acc f =>
            if runLogRegexMatch f.1 then appendMatches extract acc f.2 else acc) acc
          = acc ++ fs.flatMap (fun f => f.2.filterMap extract)
  | [], _, acc => by simp
  | f :: rest, h, acc => by
    have hf : runLogRegexMatch f.1 = true := h f (List.mem_cons_self f rest)
    have hrest := load_fold_eq_flat extract rest
      (fun g hg => h g (List.mem_cons_of_mem f hg)) (appendMatches extract acc f.2)
    simp only [List.foldl_cons, if_pos hf]
    rw [hrest, appendMatches_eq]
    simp [List.flatMap_cons, List.append_assoc]

end CpuHash

namespace CpuHashScaling

/-- The inner line loop of `load_samples` in analyze_cpu_hash_scaling.py:
`samples[conc].append(throughput)` into a defaultdict, modelled as updating
a function from concurrency levels to sample lists. -/
def addScaleLines {L : Type} (extract : L → Option (ℕ × ℚ)) (acc : ℕ → List ℚ)
    (lines : List L) : ℕ → List ℚ :=
  lines.foldl (fun acc2 line =>
    match extract line with
    | some cv => fun c => if c = cv.1 then acc2 c ++ [cv.2] else acc2 c
    | none => acc2) acc

/-- `load_samples(path)` from analyze_cpu_hash_scaling.py: same sorted
`*_run.log` iteration, with `SCALE_LINE_PATTERN` capturing a concurrency
level and a throughput from each matching line. -/
def load_samples {L : Type} (dir : Option (List (String × List L)))
    (extract : L → Option (ℕ × ℚ)) : ℕ → List ℚ :=
  match dir with
  | none => fun _ => []
  | some files =>
    (sortFiles (files.filter (fun f => runLogGlob f.1))).foldl
      (fun acc f => if runLogRegexMatch f.1 then addScaleLines extract acc f.2 else acc)
      (fun _ => [])

theorem addScaleLines_eq {L : Type} (extract : L → Option (ℕ × ℚ)) :
    ∀ (lines : List L) (acc : ℕ → List ℚ) (c : ℕ),
      addScaleLines extract acc lines c
        = acc c ++ lines.filterMap
            (fun line => (extract line).bind
              (fun cv => if cv.1 = c then some cv.2 else none))
  | [], acc, c => by simp [addScaleLines]
  | line :: rest, acc, c => by
    cases h : extract line with
    | none =>
      have := addScaleLines_eq extract rest acc c
      simp only [addScaleLines, List.foldl_cons, h] at this ⊢
      simp [this, List.filterMap_cons, h]
    | some cv =>
      have hrec := addScaleLines_eq extract rest
        (fun c2 => if c2 = cv.1 then acc c2 ++ [cv.2] else acc c2) c
      simp only [addScaleLines, List.foldl_cons, h] at hrec ⊢
      rw [hrec, List.filterMap_cons]
      simp only [h, Option.some_bind]
      by_cases hc : cv.1 = c
      · rw [if_pos hc, if_pos hc.symm]
        simp [List.append_assoc]
      · have hc2 : ¬ c = cv.1 := fun he => hc he.symm
        rw [if_neg hc, if_neg hc2]

theorem load_fold_eq_scaling {L : Type} (extract : L → Option (ℕ × ℚ)) (c : ℕ) :
    ∀ (fs : List (String × List L)), (∀ f ∈ fs, runLogRegexMatch f.1 = true) →
      ∀ acc : ℕ → List ℚ,
        fs.foldl (fun acc f =>
            if runLogRegexMatch f.1 then addScaleLines extract acc f.2 else acc) acc c
          = acc c ++ fs.flatMap (fun f => f.2.filterMap
              (fun line => (extract line).bind
                (fun cv => if cv.1 = c then some cv.2 else none)))
  | [], _, acc => by simp
  | f :: rest, h, acc => by
    have hf : runLogRegexMatch f.1 = true := h f (List.mem_cons_self f rest)
    have hrest := load_fold_eq_scaling extract c rest
      (fun g hg => h g (List.mem_cons_of_mem f hg)) (addScaleLines extract acc f.2)
    simp only [List.foldl_cons, if_pos hf]
    rw [hrest, addScaleLines_eq]
    simp [List.flatMap_cons, List.append_assoc]

end CpuHashScaling

theorem sortFiles_regex {L : Type} (files : List (String × List L)) :
    ∀ f ∈ sortFiles (files.filter (fun f => runLogGlob f.1)), runLogRegexMatch f.1 = true := by
  intro f hf
  have hmem : f ∈ files.filter (fun f => runLogGlob f.1) :=
    (List.perm_insertionSort fileLe _).mem_iff.mp hf
  have hp := (List.mem_filter.mp hmem).2
  exact runLogGlob_implies_regex (by simpa using hp)

/-- C9: for every log directory, the loaded sample sequence is the
concatenation, over the `*_run.log` files in ascending (lexicographic)
filename order, of the values captured from matching lines in line order;
non-matching lines contribute nothing (the extraction functions are total,
so no error is possible).  This covers the flat loader of
analyze_cpu_hash_comparison.py and, per concurrency level, the
concurrency-keyed loader of analyze_cpu_hash_scaling.py. -/
theorem load_samples_sorted_concatenation :
    (∀ (L : Type) (files : List (String × List L)) (extract : L → Option ℚ),
      CpuHash.load_samples (some files) extract
        = (sortFiles (files.filter (fun f => runLogGlob f.1))).flatMap
            (fun f => f.2.filterMap extract))
    ∧ (∀ (L : Type) (files : List (String × List L)),
        List.Sorted (· ≤ ·) ((sortFiles (files.filter (fun f => runLogGlob f.1))).map Prod.fst))
    ∧ (∀ (L : Type) (files : List (String × List L)),
        (sortFiles (files.filter (fun f => runLogGlob f.1))).Perm
          (files.filter (fun f => runLogGlob f.1)))
    ∧ (∀ (L : Type) (extract : L → Option ℚ),
        CpuHash.load_samples (L := L) none extract = [])
    ∧ (∀ (L : Type) (files : List (String × List L)) (extract : L → Option (ℕ × ℚ)) (c : ℕ),
        CpuHashScaling.load_samples (some files) extract c
          = (sortFiles (files.filter (fun f => runLogGlob f.1))).flatMap
              (fun f => f.2.filterMap
                (fun line => (extract line).bind
                  (fun cv => if cv.1 = c then some cv.2 else none)))) := by
  refine ⟨?_, ?_, ?_, ?_, ?_⟩
  · intro L files extract
    simpa [CpuHash.load_samples] using
      CpuHash.load_fold_eq_flat extract _ (sortFiles_regex files) []
  · intro L files
    exact List.Pairwise.map _ (fun a b hab => hab)
      (List.sorted_insertionSort fileLe (files.filter (fun f => runLogGlob f.1)))
  · intro L files
    exact List.perm_insertionSort fileLe _
  · intro L extract
    rfl
  · intro L files extract c
    simpa [CpuHashScaling.load_samples] using
      CpuHashScaling.load_fold_eq_scaling extract c _ (sortFiles_regex files) (fun _ => [])

namespace GenerateSummary

/-- The optional unit conversion of generate_summary.py (`convert_func`,
e.g. KB → MB): applied to the captured value when present. -/
def applyConvert (convert : Option (ℚ → ℚ)) (v : ℚ) : ℚ :=
  match convert with
  | some g => g v
  | none => v

/-- The inner line loop of `load_samples` in generate_summary.py: append
the (possibly converted) captured value of each matching line. -/
def appendConverted {L : Type} (pattern : L → Option ℚ) (convert : Option (ℚ → ℚ))
    (acc : List ℚ) (lines : List L) : List ℚ :=
  lines.foldl (fun acc2 line =>
    match pattern line with
    | some v => acc2 ++ [applyConvert convert v]
    | none => acc2) acc

/-- `load_samples(log_dir, pattern, convert_func)` from generate_summary.py:
an empty collection for a missing directory (the explicit
`if not log_dir.exists(): return samples` check), otherwise the sorted
`*_run.log` iteration collecting the captured value of each matching line. -/
def load_samples {L : Type} (dir : Option (List (String × List L)))
    (pattern : L → Option ℚ) (convert : Option (ℚ → ℚ)) : List ℚ :=
  match dir with
  | none => []
  | some files =>
    (sortFiles (files.filter (fun f => runLogGlob f.1))).foldl
      (fun acc f => appendConverted pattern convert acc f.2) []

end GenerateSummary

/-- The per-(benchmark, runtime) load loop of generate_summary.py `main`:
a count line is printed when samples were found; a runtime with no samples
is skipped with no output at all. -/
def generate_summary_collect_events (results : List (String × String × List ℚ)) :
    List Event :=
  results.flatMap (fun r =>
    if r.2.2 = [] then [] else [Event.sampleCount r.1 r.2.1 r.2.2.length])

/-- The per-runtime load loop of analyze_cpu_hash_comparison.py `main`:
a warning line for a runtime with no samples, a low-sample-count warning
below 3 samples, nothing otherwise. -/
def cpu_hash_load_events (loaded : List (String × List ℚ)) : List Event :=
  loaded.flatMap (fun p =>
    if p.2 = [] then [Event.warnNoSamples p.1]
    else if p.2.length < 3 then [Event.warnFewSamples p.1 p.2.length]
    else [])

/-- Counterexample to C7: generate_summary.py proceeds for the runtime with
no samples without printing any warning for it: with no samples for
"native" and two for "docker", the loop's trace holds only the docker count
line, and no explanatory (warning) line at all. -/
theorem summary_missing_data_warning_ce :
    generate_summary_collect_events
        [("cpu_hash", "native", ([] : List ℚ)), ("cpu_hash", "docker", [3, 4])]
      = [Event.sampleCount "cpu_hash" "docker" 2]
    ∧ (generate_summary_collect_events
        [("cpu_hash", "native", ([] : List ℚ)), ("cpu_hash", "docker", [3, 4])]).filter
          Event.isExplanatory = [] := by
  constructor <;> rfl

/-- C7 (amended): a missing input directory or a directory with zero
`*_run.log` files yields an empty sample collection and no error; the
cpu-hash caller prints a warning for each runtime whose collection is
empty; the generate_summary caller prints no warning (it silently skips
the runtime, printing a count line only when samples exist). -/
theorem load_samples_missing_nonfatal :
    (∀ (L : Type) (pattern : L → Option ℚ) (convert : Option (ℚ → ℚ)),
       GenerateSummary.load_samples (L := L) none pattern convert = [])
    ∧ (∀ (L : Type) (files : List (String × List L)) (pattern : L → Option ℚ)
         (convert : Option (ℚ → ℚ)),
        files.filter (fun f => runLogGlob f.1) = [] →
        GenerateSummary.load_samples (some files) pattern convert = [])
    ∧ (∀ (loaded : List (String × List ℚ)) (rt : String),
        (rt, ([] : List ℚ)) ∈ loaded →
        Event.warnNoSamples rt ∈ cpu_hash_load_events loaded)
    ∧ (∀ results : List (String × String × List ℚ),
        (generate_summary_collect_events results).filter Event.isExplanatory = []) := by
  refine ⟨?_, ?_, ?_, ?_⟩
  · intro L pattern convert
    rfl
  · intro L files pattern convert hempty
    simp [GenerateSummary.load_samples, hempty, sortFiles]
  · intro loaded rt h
    induction loaded with
    | nil => simp at h
    | cons p rest ih =>
      rcases List.mem_cons.mp h with h | h
      · subst h
        simp [cpu_hash_load_events]
      · have := ih h
        simp only [cpu_hash_load_events, List.flatMap_cons, List.mem_append] at this ⊢
        exact Or.inr this
  · intro results
    induction results with
    | nil => rfl
    | cons r rest ih =>
      simp only [generate_summary_collect_events, List.flatMap_cons,
        List.filter_append] at ih ⊢
      rw [ih]
      by_cases hr : r.2.2 = [] <;> simp [hr, Event.isExplanatory]

/-- Witness for C7: a missing directory, an empty directory, a cpu-hash
runtime with no samples (which gets a warning), and a generate_summary
result set (which never produces a warning). -/
theorem load_samples_missing_nonfatal_witness :
    GenerateSummary.load_samples (L := ℕ) none (fun _ => none) none = []
    ∧ (([] : List (String × List ℕ)).filter (fun f => runLogGlob f.1) = [])
    ∧ GenerateSummary.load_samples (some ([] : List (String × List ℕ))) (fun _ => none) none = []
    ∧ ("native", ([] : List ℚ)) ∈ [("native", ([] : List ℚ))]
    ∧ Event.warnNoSamples "native" ∈ cpu_hash_load_events [("native", ([] : List ℚ))]
    ∧ (generate_summary_collect_events [("cold_start", "native", [(3 : ℚ)])]).filter
        Event.isExplanatory = [] :=
  ⟨load_samples_missing_nonfatal.1 ℕ (fun _ => none) none, rfl,
    load_samples_missing_nonfatal.2.1 ℕ [] (fun _ => none) none rfl,
    List.mem_singleton.mpr rfl,
    load_samples_missing_nonfatal.2.2.1 [("native", [])] "native" (List.mem_singleton.mpr rfl),
    load_samples_missing_nonfatal.2.2.2 [("cold_start", "native", [(3 : ℚ)])]⟩

/-! ## analyze_http_hello_all.py / analyze_native_http_hello.py — parse_run_log

`RUN_LOG_PATTERN` on the filename yields the run id; per line,
`COLD_START_PATTERN` may capture a cold-start value (each later match
overwrites the earlier one) and `LATENCY_PATTERN` may capture
(req, http_code, latency_ns, latency_ms); a latency sample is kept only
for http_code 200.  A file with no cold-start match or no kept latency
yields no run record. -/

/-- The capture groups of `LATENCY_PATTERN`
(`req=… http_code=… latency_ns=… latency_ms=…`). -/
structure LatLine where
  req : ℕ
  http_code : ℕ
  latency_ns : ℕ
  latency_ms : ℚ
deriving DecidableEq

/-- The record `{"run_id": …, "cold_start_ms": …, "latencies_ms": […]}`
returned by `parse_run_log` for a usable file. -/
structure RunRecord where
  run_id : String
  cold_start_ms : ℚ
  latencies_ms : List ℚ
deriving DecidableEq

/-- One iteration of the line loop of `parse_run_log`: the running state is
(last cold-start match so far, kept latencies so far). -/
def parse_step {L : Type} (coldOf : L → Option ℚ) (latOf : L → Option LatLine)
    (st : Option ℚ × List ℚ) (line : L) : Option ℚ × List ℚ :=
  let st1 := match coldOf line with
    | some v => (some v, st.2)
    | none => st
  match latOf line with
  | some l => if l.http_code = 200 then (st1.1, st1.2 ++ [l.latency_ms]) else st1
  | none => st1

/-- `parse_run_log(path)` from analyze_http_hello_all.py (the version in
analyze_native_http_hello.py behaves identically, adding two warning
prints): `none` when the filename does not match `RUN_LOG_PATTERN`, when no
line matched `COLD_START_PATTERN`, or when no latency with http_code 200
was kept. -/
def parse_run_log {L : Type} (runIdOf : String → Option String)
    (coldOf : L → Option ℚ) (latOf : L → Option LatLine)
    (name : String) (lines : List L) : Option RunRecord :=
  match runIdOf name with
  | none => none
  | some rid =>
    let st := lines.foldl (parse_step coldOf latOf) (none, [])
    match st.1 with
    | none => none
    | some cs => if st.2 = [] then none else some ⟨rid, cs, st.2⟩

/-- The latency value a line contributes: the `latency_ms` capture when the
line matches `LATENCY_PATTERN` with http_code 200, nothing otherwise. -/
def latency200 {L : Type} (latOf : L → Option LatLine) (line : L) : Option ℚ :=
  (latOf line).bind (fun l => if l.http_code = 200 then some l.latency_ms else none)

/-- The last value of a left-to-right sequence of overwrites starting from
`c0`. -/
def lastSome (c0 : Option ℚ) (l : List ℚ) : Option ℚ :=
  l.foldl (fun _ v => some v) c0

theorem lastSome_append (c0 : Option ℚ) (l : List ℚ) (v : ℚ) :
    lastSome c0 (l ++ [v]) = some v := by
  simp [lastSome]

theorem lastSome_eq_none_iff : ∀ (c0 : Option ℚ) (l : List ℚ),
    lastSome c0 l = none ↔ l = [] ∧ c0 = none
  | c0, [] => by simp [lastSome]
  | c0, v :: rest => by
    rw [show lastSome c0 (v :: rest) = lastSome (some v) rest from rfl]
    rw [lastSome_eq_none_iff (some v) rest]
    simp

theorem parse_fold {L : Type} (coldOf : L → Option ℚ) (latOf : L → Option LatLine) :
    ∀ (lines : List L) (c0 : Option ℚ) (a0 : List ℚ),
      lines.foldl (parse_step coldOf latOf) (c0, a0)
        = (lastSome c0 (lines.filterMap coldOf), a0 ++ lines.filterMap (latency200 latOf))
  | [], c0, a0 => by simp [lastSome]
  | line :: rest, c0, a0 => by
    rw [List.foldl_cons]
    cases hc : coldOf line with
    | none =>
      cases hl : latOf line with
      | none =>
        rw [show parse_step coldOf latOf (c0, a0) line = (c0, a0) by
          simp [parse_step, hc, hl]]
        rw [parse_fold coldOf latOf rest c0 a0]
        simp [List.filterMap_cons, hc, latency200, hl]
      | some l =>
        by_cases h200 : l.http_code = 200
        · rw [show parse_step coldOf latOf (c0, a0) line = (c0, a0 ++ [l.latency_ms]) by
            simp [parse_step, hc, hl, h200]]
          rw [parse_fold coldOf latOf rest c0 (a0 ++ [l.latency_ms])]
          simp [List.filterMap_cons, hc, latency200, hl, h200, List.append_assoc]
        · rw [show parse_step coldOf latOf (c0, a0) line = (c0, a0) by
            simp [parse_step, hc, hl, h200]]
          rw [parse_fold coldOf latOf rest c0 a0]
          simp [List.filterMap_cons, hc, latency200, hl, h200]
    | some v =>
      cases hl : latOf line with
      | none =>
        rw [show parse_step coldOf latOf (c0, a0) line = (some v, a0) by
          simp [parse_step, hc, hl]]
        rw [parse_fold coldOf latOf rest (some v) a0]
        simp [List.filterMap_cons, hc, latency200, hl, lastSome]
      | some l =>
        by_cases h200 : l.http_code = 200
        · rw [show parse_step coldOf latOf (c0, a0) line = (some v, a0 ++ [l.latency_ms]) by
            simp [parse_step, hc, hl, h200]]
          rw [parse_fold coldOf latOf rest (some v) (a0 ++ [l.latency_ms])]
          simp [List.filterMap_cons, hc, latency200, hl, h200, lastSome, List.append_assoc]
        · rw [show parse_step coldOf latOf (c0, a0) line = (some v, a0) by
            simp [parse_step, hc, hl, h200]]
          rw [parse_fold coldOf latOf rest (some v) a0]
          simp [List.filterMap_cons, hc, latency200, hl, h200, lastSome]

/-- C10: a parsed run record keeps exactly the latency values of lines
whose http_code capture is 200, in line order; and parsing yields no record
exactly when the filename does not match, no line matched the cold-start
pattern, or no matched latency line had status 200. -/
theorem parse_run_log_status_filter {L : Type} (runIdOf : String → Option String)
    (coldOf : L → Option ℚ) (latOf : L → Option LatLine)
    (name : String) (lines : List L) :
    (∀ rec : RunRecord,
       parse_run_log runIdOf coldOf latOf name lines = some rec →
       rec.latencies_ms = lines.filterMap (latency200 latOf))
    ∧ (parse_run_log runIdOf coldOf latOf name lines = none
       ↔ runIdOf name = none
         ∨ lines.filterMap coldOf = []
         ∨ lines.filterMap (latency200 latOf) = []) := by
  cases hr : runIdOf name with
  | none => simp [parse_run_log, hr]
  | some rid =>
    have hfold := parse_fold coldOf latOf lines none []
    constructor
    · intro rec hrec
      rw [parse_run_log, hr] at hrec
      rw [hfold] at hrec
      simp only [List.nil_append] at hrec
      cases hcs : lastSome none (lines.filterMap coldOf) with
      | none => rw [hcs] at hrec; simp at hrec
      | some cs =>
        rw [hcs] at hrec
        by_cases hlat : lines.filterMap (latency200 latOf) = []
        · simp [hlat] at hrec
        · simp only [if_neg hlat] at hrec
          have hrec2 := Option.some.inj hrec
          rw [← hrec2]
    · rw [parse_run_log, hr, hfold]
      simp only [List.nil_append]
      cases hcs : lastSome none (lines.filterMap coldOf) with
      | none =>
        have hcold : lines.filterMap coldOf = [] :=
          ((lastSome_eq_none_iff none _).mp hcs).1
        simp [hr, hcold]
      | some cs =>
        have hcold : lines.filterMap coldOf ≠ [] := by
          intro he
          rw [he] at hcs
          simp [lastSome] at hcs
        by_cases hlat : lines.filterMap (latency200 latOf) = []
        · simp [hr, hcold, hlat]
        · simp [hr, hcold, hlat]

/-- Witness for C10: a log with one cold-start line, one 200-status latency
line and one 500-status latency line keeps only the 200 latency; a log with
only a non-200 latency yields no record. -/
theorem parse_run_log_status_filter_witness :
    parse_run_log (fun n => if n = "a_run.log" then some "r1" else none)
        (fun l => if l = 1 then some 7 else none)
        (fun l => if l = 2 then some ⟨1, 200, 900, (9 : ℚ)⟩
                  else if l = 3 then some ⟨2, 500, 800, (8 : ℚ)⟩ else none)
        "a_run.log" [1, 2, 3]
      = some ⟨"r1", 7, [9]⟩
    ∧ ([9] : List ℚ)
        = [1, 2, 3].filterMap (latency200
            (fun l => if l = 2 then some ⟨1, 200, 900, (9 : ℚ)⟩
                      else if l = 3 then some ⟨2, 500, 800, (8 : ℚ)⟩ else none))
    ∧ parse_run_log (fun n => if n = "a_run.log" then some "r1" else none)
        (fun l => if l = 1 then some 7 else none)
        (fun l => if l = 3 then some ⟨2, 500, 800, (8 : ℚ)⟩ else none)
        "a_run.log" [1, 3]
      = none := by
  have hp : parse_run_log (fun n => if n = "a_run.log" then some "r1" else none)
      (fun l => if l = 1 then some 7 else none)
      (fun l => if l = 2 then some ⟨1, 200, 900, (9 : ℚ)⟩
                else if l = 3 then some ⟨2, 500, 800, (8 : ℚ)⟩ else none)
      "a_run.log" [1, 2, 3]
      = some ⟨"r1", 7, [9]⟩ := rfl
  refine ⟨hp, ?_, rfl⟩
  exact (parse_run_log_status_filter (fun n => if n = "a_run.log" then some "r1" else none)
    (fun l => if l = 1 then some 7 else none)
    (fun l => if l = 2 then some ⟨1, 200, 900, (9 : ℚ)⟩
              else if l = 3 then some ⟨2, 500, 800, (8 : ℚ)⟩ else none)
    "a_run.log" [1, 2, 3]).1 ⟨"r1", 7, [9]⟩ hp

/-! ## Exit decisions of the nine scripts (C5)

Each `main` begins with a load-and-check phase that decides, from the
loaded data alone, whether to `return` early (the process then ends with
exit status 0), call `sys.exit(1)`, or proceed into aggregation, plotting
and reporting.  Only that explicit decision is modelled.  A script that
proceeds normally ends with status 0, but can still be aborted with a
non-zero status by a later propagated exception — e.g. the
`ZeroDivisionError` on a zero-mean baseline modelled `Option`-valued for
`calculate_scaling_efficiency` above, or the zero-mean divisions in the
speedup and overhead reporting — so the proceed path's final status is
deliberately left open here. -/

/-- The outcome of a script's data checks: an early `return` (the script
ends with exit status 0), a `sys.exit(1)`, or control proceeding into the
aggregation/reporting phase. -/
inductive MainOutcome where
  | exitZero
  | exitOne
  | proceeds
deriving DecidableEq

/-- analyze_cold_start_comparison.py `main`: `return` when the CSV file is
missing ("ERROR: Data file not found"), `return` when no scenario has
entries ("No data found for any scenario."), otherwise proceed to
`print_summary` and the plots.  No `sys.exit` call exists in the script. -/
def analyze_cold_start_comparison_check (csv : Option (Scenario → List CsvEntry)) :
    MainOutcome :=
  match csv with
  | none => .exitZero
  | some data =>
    if summaryKeys.all (fun k => (data k).isEmpty) then .exitZero else .proceeds

/-- generate_summary.py `main`: it has no data check, no early return and
no `sys.exit` call — it always proceeds to the report generation. -/
def generate_summary_check (_results : List (String × String × List ℚ)) : MainOutcome :=
  .proceeds

/-- analyze_cpu_hash_comparison.py `main`: `return` when no runtime has
samples ("No cpu-hash data found."), otherwise proceed.  No `sys.exit`
call exists in the script. -/
def analyze_cpu_hash_comparison_check (loaded : List (String × List ℚ)) : MainOutcome :=
  if loaded.filter (fun p => !p.2.isEmpty) = [] then .exitZero else .proceeds

/-- analyze_cpu_hash_scaling.py `main`: `return` when no runtime has
scaling samples, otherwise proceed.  No `sys.exit` call. -/
def analyze_cpu_hash_scaling_check (loaded : List (String × List (ℕ × List ℚ))) :
    MainOutcome :=
  if loaded.filter (fun p => !p.2.isEmpty) = [] then .exitZero else .proceeds

/-- analyze_wasm_hello_comparison.py `main`: `return` when no runtime has
samples, otherwise proceed.  No `sys.exit` call. -/
def analyze_wasm_hello_comparison_check (loaded : List (String × List ℚ)) : MainOutcome :=
  if loaded.filter (fun p => !p.2.isEmpty) = [] then .exitZero else .proceeds

/-- analyze_native_http_hello.py `main`: `return` when there are no run
logs, `return` when no log parses to a record, otherwise proceed.  No
`sys.exit` call. -/
def analyze_native_http_hello_check (parsed : List (Option RunRecord)) : MainOutcome :=
  if parsed = [] then .exitZero
  else if parsed.filterMap id = [] then .exitZero else .proceeds

/-- analyze_http_hello_all.py `main`: `return` when no runtime has parsed
runs, otherwise proceed.  No `sys.exit` call. -/
def analyze_http_hello_all_check (loaded : List (String × List RunRecord)) : MainOutcome :=
  if loaded.filter (fun p => !p.2.isEmpty) = [] then .exitZero else .proceeds

/-- analyze_http_hello_scaling.py `main`: `sys.exit(1)` when no runtime has
scaling samples, otherwise proceed. -/
def analyze_http_hello_scaling_check (loaded : List (String × List (ℕ × List ℚ))) :
    MainOutcome :=
  if loaded.filter (fun p => !p.2.isEmpty) = [] then .exitOne else .proceeds

/-- analyze_http_hello_stateful.py `main`: `sys.exit(1)` when no runtime
has http-hello samples, otherwise proceed. -/
def analyze_http_hello_stateful_check (loaded : List (String × List (String × List ℚ))) :
    MainOutcome :=
  if loaded.filter (fun p => !p.2.isEmpty) = [] then .exitOne else .proceeds

theorem filter_nonempty_eq_nil_iff_all {α : Type} (l : List α) (p : α → Bool) :
    l.filter (fun a => !p a) = [] ↔ l.all p = true := by
  rw [List.filter_eq_nil_iff, List.all_eq_true]
  constructor
  · intro h a ha
    have := h a ha
    simpa using this
  · intro h a ha
    simp [h a ha]

/-- Counterexample to C5: analyze_http_hello_stateful.py also calls
`sys.exit(1)` on total absence of data, so the scaling script is not the
only one that exits with a non-zero status. -/
theorem exit_status_ce :
    analyze_http_hello_stateful_check
        [("native", []), ("docker", []), ("wasmtime", [])] = .exitOne
    ∧ MainOutcome.exitOne ≠ MainOutcome.exitZero := by
  exact ⟨rfl, by decide⟩

/-- C5 (amended): the explicit exit decisions taken on the loaded data are:
exactly two scripts — http-hello scaling and http-hello stateful — call
`sys.exit(1)`, each precisely when every runtime's loaded collection is
empty; the data checks of the other seven scripts never exit non-zero —
on wholly missing data they return with status 0 after printing the
missing-data message, and otherwise they proceed (a proceeding script can
still be aborted with a non-zero status by a later propagated exception,
such as a zero division on degenerate all-zero samples; those error paths
are outside the data checks modelled here). -/
theorem scripts_exit_codes :
    (∀ csv, analyze_cold_start_comparison_check csv ≠ .exitOne)
    ∧ analyze_cold_start_comparison_check none = .exitZero
    ∧ (∀ r, generate_summary_check r = .proceeds)
    ∧ (∀ l, analyze_cpu_hash_comparison_check l
        = if l.all (fun p => p.2.isEmpty) then .exitZero else .proceeds)
    ∧ (∀ l, analyze_cpu_hash_scaling_check l
        = if l.all (fun p => p.2.isEmpty) then .exitZero else .proceeds)
    ∧ (∀ l, analyze_wasm_hello_comparison_check l
        = if l.all (fun p => p.2.isEmpty) then .exitZero else .proceeds)
    ∧ (∀ p, analyze_native_http_hello_check p ≠ .exitOne)
    ∧ (∀ l, analyze_http_hello_all_check l
        = if l.all (fun p => p.2.isEmpty) then .exitZero else .proceeds)
    ∧ (∀ l, analyze_http_hello_scaling_check l
        = if l.all (fun p => p.2.isEmpty) then .exitOne else .proceeds)
    ∧ (∀ l, analyze_http_hello_stateful_check l
        = if l.all (fun p => p.2.isEmpty) then .exitOne else .proceeds) := by
  have hfilter : ∀ {α : Type} [DecidableEq α] (l : List α) (p : α → Bool) (a b : MainOutcome),
      (if l.filter (fun x => !p x) = [] then a else b)
        = if l.all p then a else b := by
    intro α _ l p a b
    by_cases h : l.all p = true
    · rw [if_pos ((filter_nonempty_eq_nil_iff_all l p).mpr h), if_pos h]
    · rw [if_neg (fun hc => h ((filter_nonempty_eq_nil_iff_all l p).mp hc)), if_neg h]
  refine ⟨?_, rfl, fun _ => rfl, ?_, ?_, ?_, ?_, ?_, ?_, ?_⟩
  · intro csv
    cases csv with
    | none => simp [analyze_cold_start_comparison_check]
    | some data =>
      rw [analyze_cold_start_comparison_check]
      by_cases h : summaryKeys.all (fun k => (data k).isEmpty) = true <;> simp [h]
  · intro l
    exact hfilter l _ _ _
  · intro l
    exact hfilter l _ _ _
  · intro l
    exact hfilter l _ _ _
  · intro p
    rw [analyze_native_http_hello_check]
    by_cases h1 : p = []
    · simp [h1]
    · rw [if_neg h1]
      by_cases h2 : p.filterMap id = [] <;> simp [h2]
  · intro l
    exact hfilter l _ _ _
  · intro l
    exact hfilter l _ _ _
  · intro l
    exact hfilter l _ _ _

/-! ## print_summary and the Mann-Whitney loop as traces (C6) -/

/-- The four comparison triples (key1, key2, description) of `print_summary`. -/
def summaryComparisons : List (Scenario × Scenario × String) :=
  [(.docker_full_cold, .wasmtime_full_cold, "Full Cold (build from source)"),
   (.docker_runtime_cold, .wasmtime_runtime_cold, "Runtime Cold (serverless cold start)"),
   (.docker_full_cold, .docker_runtime_cold, "Docker: Full Cold vs Runtime Cold"),
   (.wasmtime_full_cold, .wasmtime_runtime_cold, "Wasmtime: Full Cold vs Runtime Cold")]

/-- The trace of `print_summary(data)` from analyze_cold_start_comparison.py:
per scenario key (in fixed order) a statistics block when the scenario has
entries (`if not entries: continue`), plus the build/start breakdown for
full-cold keys; then one comparison line per comparison whose two scenarios
both have entries.  The function contains no conditional warning print at
all. -/
noncomputable def print_summary_events (data : Scenario → List CsvEntry) : List Event :=
  (summaryKeys.flatMap (fun key =>
    match compute_stats ((data key).map CsvEntry.total_ms) with
    | none => []
    | some s =>
      Event.scenarioStats key s ::
        (if key.isFullCold then
          [Event.breakdown key (listMean ((data key).map CsvEntry.build_ms))
            (listMean ((data key).map CsvEntry.start_ms))]
         else [])))
  ++ summaryComparisons.flatMap (fun c =>
      if (data c.1).isEmpty || (data c.2.1).isEmpty then []
      else [Event.comparisonLine c.2.2
              (if comparisonWinnerIsSecond (data c.1) (data c.2.1) then c.2.1 else c.1)
              (comparisonRatio (data c.1) (data c.2.1))])

/-- The ordered pairs `(runtimes[i], runtimes[j])` with `i < j` visited by
the nested loop of `compare_runtimes_statistically`. -/
def mwPairs {β : Type} : List β → List (β × β)
  | [] => []
  | x :: rest => rest.map (fun y => (x, y)) ++ mwPairs rest

/-- The trace of `compare_runtimes_statistically(data)` from
analyze_cpu_hash_comparison.py, with scipy available; `mw` is the abstract
`scipy.stats.mannwhitneyu` p-value.  A pair with fewer than 3 samples on
either side prints the SKIPPED line and is not tested. -/
def compare_runtimes_statistically (mw : List ℚ → List ℚ → ℚ)
    (data : List (String × List ℚ)) : List Event :=
  (mwPairs data).flatMap (fun pq =>
    if pq.1.2.length < 3 ∨ pq.2.2.length < 3 then [Event.skippedPair pq.1.1 pq.2.1]
    else [Event.pairResult pq.1.1 pq.2.1 (mw pq.1.2 pq.2.2)])

/-- Counterexample to C6: a cold-start scenario with a single sample gets
its standard deviation silently replaced by 0: the printed summary for
data {docker_full_cold ↦ one run} consists of the statistics block (whose
stdev is the substituted 0 and whose count is 1 < 2) and the breakdown
line, and contains no explanatory message whatsoever. -/
theorem silent_stdev_substitution_ce :
    ((compute_stats [(5 : ℚ)]).map ColdStats.stdev = some 0)
    ∧ ((compute_stats [(5 : ℚ)]).map ColdStats.count = some 1)
    ∧ (print_summary_events (fun s =>
        match s with
        | .docker_full_cold => [CsvEntry.mk 1 2 3 5]
        | _ => [])).length = 2
    ∧ (print_summary_events (fun s =>
        match s with
        | .docker_full_cold => [CsvEntry.mk 1 2 3 5]
        | _ => [])).filter Event.isExplanatory = [] :=
  ⟨rfl, rfl, rfl, rfl⟩

theorem flatMap_filter_explanatory_nil {β : Type} (f : β → List Event)
    (hf : ∀ b, (f b).filter Event.isExplanatory = []) :
    ∀ l : List β, (l.flatMap f).filter Event.isExplanatory = []
  | [] => rfl
  | b :: rest => by
    rw [List.flatMap_cons, List.filter_append, hf b,
      flatMap_filter_explanatory_nil f hf rest]
    rfl

/-- C6 (amended): a Mann-Whitney pair with fewer than 3 samples on either
side is skipped with an explanatory SKIPPED message in the trace; a
standard deviation over fewer than 2 samples is replaced by 0; but that
substitution is silent in the cold-start summary — `print_summary` emits no
explanatory message on any input. -/
theorem insufficient_samples_reporting :
    (∀ (mw : List ℚ → List ℚ → ℚ) (data : List (String × List ℚ))
       (p q : String × List ℚ), (p, q) ∈ mwPairs data →
       p.2.length < 3 ∨ q.2.length < 3 →
       Event.skippedPair p.1 q.1 ∈ compare_runtimes_statistically mw data)
    ∧ (∀ (v : List ℚ) (s : ColdStats), compute_stats v = some s →
        v.length < 2 → s.stdev = 0)
    ∧ (∀ data : Scenario → List CsvEntry,
        (print_summary_events data).filter Event.isExplanatory = []) := by
  refine ⟨?_, ?_, ?_⟩
  · intro mw data p q hmem hins
    exact List.mem_flatMap.mpr ⟨(p, q), hmem, by simp [hins]⟩
  · intro v s hs hlen
    rw [compute_stats] at hs
    by_cases hv : v = []
    · rw [if_pos hv] at hs
      cases hs
    · rw [if_neg hv] at hs
      have := Option.some.inj hs
      rw [← this]
      have : ¬ 1 < v.length := by omega
      simp [this]
  · intro data
    rw [print_summary_events, List.filter_append]
    rw [flatMap_filter_explanatory_nil _ ?_ summaryKeys,
      flatMap_filter_explanatory_nil _ ?_ summaryComparisons]
    · rfl
    · intro c
      by_cases hc : (data c.1).isEmpty || (data c.2.1).isEmpty
      · simp [hc, Event.isExplanatory]
      · simp [hc, Event.isExplanatory]
    · intro key
      cases hstats : compute_stats ((data key).map CsvEntry.total_ms) with
      | none => simp
      | some s =>
        by_cases hfc : key.isFullCold
        · simp [hfc, Event.isExplanatory]
        · simp [hfc, Event.isExplanatory]

/-- Witness for C6: the pair (a: 1 sample, b: 2 samples) is skipped with a
message; a one-sample collection's stats dict carries stdev 0. -/
theorem insufficient_samples_reporting_witness :
    ((("a", [(1 : ℚ)]), ("b", [(1 : ℚ), 2]))
        ∈ mwPairs [("a", [(1 : ℚ)]), ("b", [(1 : ℚ), 2])])
    ∧ ([(1 : ℚ)].length < 3 ∨ [(1 : ℚ), 2].length < 3)
    ∧ Event.skippedPair "a" "b"
        ∈ compare_runtimes_statistically (fun _ _ => 0)
            [("a", [(1 : ℚ)]), ("b", [(1 : ℚ), 2])]
    ∧ compute_stats [(5 : ℚ)]
        = some ⟨listMean [(5 : ℚ)], listMedian [(5 : ℚ)], 0,
                listMin [(5 : ℚ)], listMax [(5 : ℚ)], 1⟩
    ∧ ([(5 : ℚ)].length < 2)
    ∧ (⟨listMean [(5 : ℚ)], listMedian [(5 : ℚ)], 0,
         listMin [(5 : ℚ)], listMax [(5 : ℚ)], 1⟩ : ColdStats).stdev = 0 :=
  ⟨List.mem_append_left _ (List.mem_singleton.mpr rfl), Or.inl (by decide),
    insufficient_samples_reporting.1 (fun _ _ => 0)
      [("a", [(1 : ℚ)]), ("b", [(1 : ℚ), 2])]
      ("a", [(1 : ℚ)]) ("b", [(1 : ℚ), 2])
      (List.mem_append_left _ (List.mem_singleton.mpr rfl)) (Or.inl (by decide)),
    rfl, by decide,
    insufficient_samples_reporting.2.1 [(5 : ℚ)]
      ⟨listMean [(5 : ℚ)], listMedian [(5 : ℚ)], 0,
        listMin [(5 : ℚ)], listMax [(5 : ℚ)], 1⟩ rfl (by decide)⟩
